import Mathlib

/-!
# Verification of the kubernetes-py generic resource lifecycle layer

Shallow embedding of `src/kubernetes/K8sObject.py`,
`src/kubernetes/K8sHorizontalPodAutoscaler.py` and
`src/kubernetes/K8sStatefulSet.py`.

Modelling conventions:
- Python exceptions become an error type `K8sError`; the exception class
  is kept (as a tag), the human-readable message text is abstracted away.
  Python's `SyntaxError` (the spec's "invalid-state error") is
  `K8sError.invalidState`.
- The HTTP transport (`kubernetes.utils.HttpRequest`, external to the
  repository) is a mock: each operation takes the normalized response
  `{success, status, data}` the transport would return, and additionally
  records the list of requests it issued, so that "no HTTP request is
  issued" is expressible.
- Mutation of `self` is explicit state passing: an operation returns its
  result together with the post-call object state (mutations performed
  before a raised exception persist, as they do in Python).
- Machine-level details of the transport (auth, certs, tokens) are
  omitted from the recorded request: the code copies them verbatim from
  the configuration.
-/

/-- Error classification, mirroring `kubernetes.K8sExceptions` plus the
built-in exceptions raised by `K8sObject.py`. Message strings are
abstracted. -/
inductive K8sError where
  /-- Python `SyntaxError`: the spec's invalid-state error (e.g. name unset). -/
  | invalidState
  /-- Python bare `Exception` (raised by `list` on a falsy status and by
  `__init__` when the base URL cannot be computed). -/
  | genericException
  | notFound
  | unauthorized
  | alreadyExists
  | unprocessableEntity
  | badRequest
deriving DecidableEq, Repr

/-- Metadata of a document model: `name`, `resource_version`, `uid`
(the fields `K8sObject.py` reads and writes). -/
structure ObjectMeta where
  name : Option String
  resource_version : Option String
  uid : Option String
deriving DecidableEq, Repr

/-- In-memory document model: kind/apiVersion defaults plus metadata and
opaque spec/status sub-documents (their internal structure is never
inspected by the lifecycle layer). -/
structure Model where
  kind : String
  apiVersion : String
  metadata : ObjectMeta
  spec : String
  status : String
deriving DecidableEq, Repr

/-- Wire document produced by `serialize()`: same shape as the model. -/
structure Doc where
  kind : String
  apiVersion : String
  name : Option String
  resourceVersion : Option String
  uid : Option String
  spec : String
  status : String
deriving DecidableEq, Repr

/-- Modelled from the spec: `BaseModel.serialize()` (in
`kubernetes.models`, not under src/) reproduces the model's
kind/apiVersion/metadata/spec/status fields in the wire document. -/
def Model.serialize (m : Model) : Doc :=
  { kind := m.kind
    apiVersion := m.apiVersion
    name := m.metadata.name
    resourceVersion := m.metadata.resource_version
    uid := m.metadata.uid
    spec := m.spec
    status := m.status }

/-- `HorizontalPodAutoscaler._build_with_model` from
`src/kubernetes/models/v1beta1/HorizontalPodAutoscaler.py`: rebuild a
model from a parsed wire document field by field. -/
def HorizontalPodAutoscaler.build (d : Doc) : Model :=
  { kind := d.kind
    apiVersion := d.apiVersion
    metadata := { name := d.name, resource_version := d.resourceVersion, uid := d.uid }
    spec := d.spec
    status := d.status }

/-- Cluster configuration (`kubernetes.K8sConfig`, external): the fields
the lifecycle layer reads. `ns` is the namespace. Auth/cert material is
omitted (passed opaquely to the transport). -/
structure K8sConfig where
  ns : String
  version : String
  api_host : String
deriving DecidableEq, Repr

/-- Python class of a resource object, for the `isinstance` check in
`K8sObject.__eq__`. `base` is `K8sObject` itself; every subclass is an
instance of `base` but subclasses are unrelated to each other. -/
inductive K8sClass where
  | base
  | hpa
  | statefulSet
deriving DecidableEq, Repr

/-- `isinstance other.cls self.cls`: is an object of class `c` an
instance of class `d`? -/
def isinst : K8sClass → K8sClass → Bool
  | _, .base => true
  | .hpa, .hpa => true
  | .statefulSet, .statefulSet => true
  | _, _ => false

/-- A resource object (`K8sObject` instance). `oid` models Python object
identity (two separately constructed objects have distinct `oid`s); it
only feeds the `is` fallback of the `==` protocol. -/
structure K8sObject where
  oid : Nat
  cls : K8sClass
  config : K8sConfig
  obj_type : String
  model : Model
  base_url : String
deriving DecidableEq, Repr

/-- The `name` property: delegates to `self.model.metadata.name`. -/
def K8sObject.name (o : K8sObject) : Option String :=
  o.model.metadata.name

/-- `VALID_K8s_OBJS` from `src/kubernetes/K8sObject.py` lines 20-29,
verbatim. -/
def VALID_K8s_OBJS : List String :=
  ["Deployment", "PersistentVolume", "Pod", "ReplicaSet",
   "ReplicationController", "Secret", "Service", "Volume"]

/-- Modelled from the spec: `str_to_class` (in `kubernetes.utils`, not
under src/) builds an empty document model for the kind, "constructed
empty with kind/API-version defaults". -/
def str_to_class (obj_type : String) : Model :=
  { kind := obj_type
    apiVersion := ""
    metadata := { name := none, resource_version := none, uid := none }
    spec := ""
    status := "" }

/-- Modelled from the spec: `BaseUrls.get_base_url` (in
`kubernetes.models.v1`, not under src/) derives the collection path
`{apiVersion}/namespaces/{namespace}/{resourceKindPluralPath}`. -/
def get_base_url (version ns obj_type : String) : String :=
  version ++ "/namespaces/" ++ ns ++ "/" ++ obj_type.toLower ++ "s"

/-- `K8sObject.__init__`: validates `obj_type` against `VALID_K8s_OBJS`
(raising `SyntaxError` otherwise), builds the empty model, sets the name
through the `name` setter, and computes the base URL. The `config`
type-check is enforced by typing; `cls` records the Python class of the
instance under construction. -/
def K8sObject.init (cls : K8sClass) (config : K8sConfig) (obj_type : String)
    (name : Option String) : Except K8sError K8sObject :=
  if obj_type ∈ VALID_K8s_OBJS then
    let m := str_to_class obj_type
    let m := { m with metadata := { m.metadata with name := name } }
    .ok { oid := 0
          cls := cls
          config := config
          obj_type := obj_type
          model := m
          base_url := get_base_url config.version config.ns obj_type }
  else
    .error .invalidState

/-- `K8sHorizontalPodAutoscaler.__init__`: delegates to the generic
constructor with `obj_type='HorizontalPodAutoscaler'`. -/
def K8sHorizontalPodAutoscaler.init (config : K8sConfig) (name : Option String) :
    Except K8sError K8sObject :=
  K8sObject.init .hpa config "HorizontalPodAutoscaler" name

/-- `K8sStatefulSet.__init__`: delegates to the generic constructor with
`obj_type='StatefulSet'`. -/
def K8sStatefulSet.init (config : K8sConfig) (name : Option String) :
    Except K8sError K8sObject :=
  K8sObject.init .statefulSet config "StatefulSet" name

/-- Payload of an HTTP request body: either a serialized document model
or the standard `DeleteOptions().serialize()` body sent by `delete()`. -/
inductive Payload where
  | doc (d : Doc)
  | deleteOptions
deriving DecidableEq, Repr

/-- An HTTP request as issued by `K8sObject.request`: method, host (from
the configuration), URL and body. Auth/cert/token material is copied
verbatim from the configuration and omitted here. -/
structure Request where
  method : String
  host : String
  url : String
  data : Option Payload
deriving DecidableEq, Repr

/-- The parsed JSON body of a response. The lifecycle layer projects
either the whole document (`get_model`) or its `items` field (`list`);
both projections are surfaced as fields. -/
structure RespBody where
  doc : Doc
  items : List Doc
deriving DecidableEq, Repr

/-- Normalized transport result: `{success flag, status code, data}`.
A missing/empty status is status `0`. -/
structure HttpResponse where
  success : Bool
  status : Nat
  data : RespBody
deriving DecidableEq, Repr

/-- Outcome of a mutating operation: the result (success or raised
error), the object state after the call (in-place mutations persist even
when an exception is raised), and the requests issued. -/
structure OpOutcome where
  result : Except K8sError Unit
  state : K8sObject
  requests : List Request
deriving Repr

/-- `K8sObject.list` (generic): GET on the collection URL; a falsy
status raises a bare `Exception`; a non-success response is classified
401/409/422/else exactly as in `create`; on success the `items` field of
the body is returned. -/
def K8sObject.list (o : K8sObject) (resp : HttpResponse) :
    Except K8sError (List Doc) × List Request :=
  let req : Request := { method := "GET", host := o.config.api_host, url := o.base_url, data := none }
  if resp.status = 0 then
    (.error .genericException, [req])
  else if resp.success = false then
    (.error (if resp.status = 401 then .unauthorized
             else if resp.status = 409 then .alreadyExists
             else if resp.status = 422 then .unprocessableEntity
             else .badRequest), [req])
  else
    (.ok resp.data.items, [req])

/-- `K8sObject.get_model`: requires name set (else `SyntaxError`); GET
on `{base}/{name}`; any non-success response raises
`NotFoundException`; on success the raw parsed document is returned. -/
def K8sObject.get_model (o : K8sObject) (resp : HttpResponse) :
    Except K8sError Doc × List Request :=
  match o.name with
  | none => (.error .invalidState, [])
  | some n =>
    let req : Request := { method := "GET", host := o.config.api_host,
                           url := o.base_url ++ "/" ++ n, data := none }
    if resp.success = false then
      (.error .notFound, [req])
    else
      (.ok resp.data.doc, [req])

/-- `K8sObject.create`: requires name set (else `SyntaxError`); clears
`resource_version` on the model when non-null; POST of the serialized
model to the collection URL; non-success classified
401 → unauthorized, 409 → already-exists, 422 → unprocessable-entity,
else → bad-request. -/
def K8sObject.create (o : K8sObject) (resp : HttpResponse) : OpOutcome :=
  match o.name with
  | none => { result := .error .invalidState, state := o, requests := [] }
  | some _ =>
    let o := if o.model.metadata.resource_version ≠ none then
               { o with model := { o.model with
                   metadata := { o.model.metadata with resource_version := none } } }
             else o
    let req : Request := { method := "POST", host := o.config.api_host,
                           url := o.base_url, data := some (.doc o.model.serialize) }
    if resp.success = false then
      { result := .error (if resp.status = 401 then .unauthorized
                          else if resp.status = 409 then .alreadyExists
                          else if resp.status = 422 then .unprocessableEntity
                          else .badRequest),
        state := o, requests := [req] }
    else
      { result := .ok (), state := o, requests := [req] }

/-- `K8sObject.update`: requires name set (else `SyntaxError`); clears
`uid` on the model when non-null; PUT of the serialized model to
`{base}/{name}`; non-success classified 404 → not-found,
422 → unprocessable-entity, else → bad-request. -/
def K8sObject.update (o : K8sObject) (resp : HttpResponse) : OpOutcome :=
  match o.name with
  | none => { result := .error .invalidState, state := o, requests := [] }
  | some n =>
    let o := if o.model.metadata.uid ≠ none then
               { o with model := { o.model with
                   metadata := { o.model.metadata with uid := none } } }
             else o
    let req : Request := { method := "PUT", host := o.config.api_host,
                           url := o.base_url ++ "/" ++ n, data := some (.doc o.model.serialize) }
    if resp.success = false then
      { result := .error (if resp.status = 404 then .notFound
                          else if resp.status = 422 then .unprocessableEntity
                          else .badRequest),
        state := o, requests := [req] }
    else
      { result := .ok (), state := o, requests := [req] }

/-- `K8sObject.delete`: requires name set (else `SyntaxError`); DELETE
on `{base}/{name}` with the delete-options body; non-success classified
404 → not-found, else → bad-request. -/
def K8sObject.delete (o : K8sObject) (resp : HttpResponse) : OpOutcome :=
  match o.name with
  | none => { result := .error .invalidState, state := o, requests := [] }
  | some n =>
    let req : Request := { method := "DELETE", host := o.config.api_host,
                           url := o.base_url ++ "/" ++ n, data := some .deleteOptions }
    if resp.success = false then
      { result := .error (if resp.status = 404 then .notFound else .badRequest),
        state := o, requests := [req] }
    else
      { result := .ok (), state := o, requests := [req] }

/-- `K8sHorizontalPodAutoscaler.get`: wraps `get_model`'s result into
the resource-kind document type, replacing the held model wholesale; on
a raised error the held model is untouched. -/
def K8sHorizontalPodAutoscaler.get (o : K8sObject) (resp : HttpResponse) : OpOutcome :=
  match K8sObject.get_model o resp with
  | (.ok d, reqs) =>
    { result := .ok (), state := { o with model := HorizontalPodAutoscaler.build d },
      requests := reqs }
  | (.error e, reqs) =>
    { result := .error e, state := o, requests := reqs }

/-- The loop at the end of `K8sHorizontalPodAutoscaler.list`: for each
filtered model, construct a fresh wrapper via
`K8sHorizontalPodAutoscaler(config=self.config, name=x.name)` and
replace its model; an exception raised mid-loop aborts the whole call. -/
def buildHpaWrappers (config : K8sConfig) : List Model → Except K8sError (List K8sObject)
  | [] => .ok []
  | x :: xs =>
    match K8sHorizontalPodAutoscaler.init config x.metadata.name with
    | .error e => .error e
    | .ok z =>
      match buildHpaWrappers config xs with
      | .error e => .error e
      | .ok rest => .ok ({ z with model := x } :: rest)

/-- Substring containment on character lists, the semantics of Python's
`pattern in s` for strings: the empty pattern is contained everywhere;
otherwise the pattern must occur as a contiguous run. -/
def containsChars (pattern : List Char) : List Char → Bool
  | [] => pattern.isEmpty
  | c :: rest => pattern.isPrefixOf (c :: rest) || containsChars pattern rest

/-- `pattern in x.name` for a model built from a server item. Python
raises `TypeError` when the name is `None`; the theorems below only
consider items that carry a name, so that branch is modelled as
`false`. -/
def nameContains (pattern : String) (m : Model) : Bool :=
  match m.metadata.name with
  | some n => containsChars pattern.toList n.toList
  | none => false

/-- `K8sHorizontalPodAutoscaler.list`: calls the generic `list`, wraps
each raw item into the resource document type, filters by substring
match on name when a pattern is supplied, then rebuilds one wrapper
object per surviving item (in order). -/
def K8sHorizontalPodAutoscaler.list (o : K8sObject) (pattern : Option String)
    (resp : HttpResponse) : Except K8sError (List K8sObject) × List Request :=
  match K8sObject.list o resp with
  | (.error e, reqs) => (.error e, reqs)
  | (.ok ls, reqs) =>
    let hpas := ls.map HorizontalPodAutoscaler.build
    let hpas := match pattern with
      | none => hpas
      | some p => hpas.filter (nameContains p)
    (buildHpaWrappers o.config hpas, reqs)

/-- `K8sObject.__eq__`: when `other` is an instance of `self`'s class,
compare namespace and name; otherwise return `NotImplemented`
(`none`). -/
def K8sObject.eqMethod (self other : K8sObject) : Option Bool :=
  if isinst other.cls self.cls then
    some (self.config.ns == other.config.ns && self.name == other.name)
  else
    none

/-- Python's `==` protocol for two resource objects: try one side's
`__eq__`, then the reflected one, then fall back to identity (`is`).
(When the right operand's class is a proper subclass of the left's,
Python tries the reflected method first; both methods compute the same
namespace-and-name conjunction here, so the value is unaffected.) -/
def pyEq (a b : K8sObject) : Bool :=
  match a.eqMethod b with
  | some r => r
  | none =>
    match b.eqMethod a with
    | some r => r
    | none => a.oid == b.oid

/-! ## Concrete fixtures used by witnesses and counterexamples -/

/-- A cluster configuration as the test harness would supply it. -/
def sampleConfig : K8sConfig :=
  { ns := "default", version := "v1", api_host := "localhost:8888" }

/-- A populated document model (name, resource version and UID all
set). -/
def sampleModel : Model :=
  { kind := "Pod"
    apiVersion := "v1"
    metadata := { name := some "my-pod", resource_version := some "42", uid := some "abc-123" }
    spec := "podSpec"
    status := "podStatus" }

/-- A generic resource object of a valid kind (`Pod`) with a fully
populated model. -/
def sampleObj : K8sObject :=
  { oid := 0
    cls := .base
    config := sampleConfig
    obj_type := "Pod"
    model := sampleModel
    base_url := get_base_url "v1" "default" "Pod" }

/-- `sampleObj` with its name unset. -/
def noNameObj : K8sObject :=
  { sampleObj with model := { sampleModel with
      metadata := { sampleModel.metadata with name := none } } }

/-- An empty wire document. -/
def emptyDoc : Doc :=
  { kind := "", apiVersion := "", name := none, resourceVersion := none,
    uid := none, spec := "", status := "" }

/-- A failure response with the given status code and an empty body. -/
def respF (s : Nat) : HttpResponse :=
  { success := false, status := s, data := { doc := emptyDoc, items := [] } }

/-! ## C1 -/

/-- C1: the claim says constructing `K8sHorizontalPodAutoscaler` or
`K8sStatefulSet` succeeds for every valid configuration and name. It
does not: `VALID_K8s_OBJS` contains neither `'HorizontalPodAutoscaler'`
nor `'StatefulSet'`, so `K8sObject.__init__` raises `SyntaxError`
before the base URL is ever computed — both constructors always fail. -/
theorem C1_subclass_construction_always_fails :
    K8sHorizontalPodAutoscaler.init sampleConfig (some "php-apache")
      = .error K8sError.invalidState ∧
    K8sStatefulSet.init sampleConfig (some "cassandra")
      = .error K8sError.invalidState := by
  constructor <;> rfl

/-! ## C3 -/

/-- C3: with the name unset, `create()`, `update()` and `delete()` each
raise the invalid-state error, leave the object untouched, and issue no
HTTP request. -/
theorem C3_no_name_fails_without_request (o : K8sObject) (resp : HttpResponse)
    (h : o.name = none) :
    K8sObject.create o resp = { result := .error .invalidState, state := o, requests := [] } ∧
    K8sObject.update o resp = { result := .error .invalidState, state := o, requests := [] } ∧
    K8sObject.delete o resp = { result := .error .invalidState, state := o, requests := [] } := by
  unfold K8sObject.create K8sObject.update K8sObject.delete
  rw [h]
  exact ⟨rfl, rfl, rfl⟩

/-- Witness for C3 at a concrete nameless object and a concrete
response. -/
theorem C3_witness :
    K8sObject.create noNameObj (respF 401)
      = { result := .error .invalidState, state := noNameObj, requests := [] } ∧
    K8sObject.update noNameObj (respF 401)
      = { result := .error .invalidState, state := noNameObj, requests := [] } ∧
    K8sObject.delete noNameObj (respF 401)
      = { result := .error .invalidState, state := noNameObj, requests := [] } :=
  C3_no_name_fails_without_request noNameObj (respF 401) rfl

/-! ## C4 -/

/-- C4: when `get()` receives a 404 (non-success) response, it raises
the not-found error and the whole object — in particular the previously
held document model — is unchanged. -/
theorem C4_get_404_keeps_model (o : K8sObject) (resp : HttpResponse) (n : String)
    (hn : o.name = some n) (hs : resp.success = false)
    (_h404 : resp.status = 404) :
    K8sHorizontalPodAutoscaler.get o resp =
      { result := .error .notFound, state := o,
        requests := [{ method := "GET", host := o.config.api_host,
                       url := o.base_url ++ "/" ++ n, data := none }] } := by
  unfold K8sHorizontalPodAutoscaler.get K8sObject.get_model
  rw [hn, hs]
  rfl

/-- Witness for C4: a concrete populated object and a concrete 404
response. -/
theorem C4_witness :
    K8sHorizontalPodAutoscaler.get sampleObj (respF 404) =
      { result := .error .notFound, state := sampleObj,
        requests := [{ method := "GET", host := sampleObj.config.api_host,
                       url := sampleObj.base_url ++ "/" ++ "my-pod", data := none }] } :=
  C4_get_404_keeps_model sampleObj (respF 404) "my-pod" rfl rfl rfl

/-! ## C5 -/

/-- C5: when the model's resource version is non-null, `create()` POSTs
the serialization of the model with the resource version cleared (and
all other fields as held). -/
theorem C5_create_clears_resource_version (o : K8sObject) (resp : HttpResponse)
    (n v : String) (hn : o.name = some n)
    (hrv : o.model.metadata.resource_version = some v) :
    (K8sObject.create o resp).requests =
      [{ method := "POST", host := o.config.api_host, url := o.base_url,
         data := some (.doc
           { kind := o.model.kind
             apiVersion := o.model.apiVersion
             name := some n
             resourceVersion := none
             uid := o.model.metadata.uid
             spec := o.model.spec
             status := o.model.status }) }] := by
  have hn' : o.model.metadata.name = some n := hn
  unfold K8sObject.create
  rw [hn]
  rcases resp with ⟨succ, st, body⟩
  cases succ <;> simp [hrv, Model.serialize, hn']

/-- Witness for C5: `sampleObj` holds resource version `"42"`; the
payload sent carries none. -/
theorem C5_witness :
    (K8sObject.create sampleObj (respF 500)).requests =
      [{ method := "POST", host := sampleObj.config.api_host, url := sampleObj.base_url,
         data := some (.doc
           { kind := sampleObj.model.kind
             apiVersion := sampleObj.model.apiVersion
             name := some "my-pod"
             resourceVersion := none
             uid := sampleObj.model.metadata.uid
             spec := sampleObj.model.spec
             status := sampleObj.model.status }) }] :=
  C5_create_clears_resource_version sampleObj (respF 500) "my-pod" "42" rfl rfl

/-! ## C6 -/

/-- C6: when the model's UID is non-null, `update()` PUTs the
serialization of the model with the UID cleared (and all other fields as
held). -/
theorem C6_update_clears_uid (o : K8sObject) (resp : HttpResponse)
    (n u : String) (hn : o.name = some n)
    (hu : o.model.metadata.uid = some u) :
    (K8sObject.update o resp).requests =
      [{ method := "PUT", host := o.config.api_host, url := o.base_url ++ "/" ++ n,
         data := some (.doc
           { kind := o.model.kind
             apiVersion := o.model.apiVersion
             name := some n
             resourceVersion := o.model.metadata.resource_version
             uid := none
             spec := o.model.spec
             status := o.model.status }) }] := by
  have hn' : o.model.metadata.name = some n := hn
  unfold K8sObject.update
  rw [hn]
  rcases resp with ⟨succ, st, body⟩
  cases succ <;> simp [hu, Model.serialize, hn']

/-- Witness for C6: `sampleObj` holds UID `"abc-123"`; the payload sent
carries none. -/
theorem C6_witness :
    (K8sObject.update sampleObj (respF 500)).requests =
      [{ method := "PUT", host := sampleObj.config.api_host,
         url := sampleObj.base_url ++ "/" ++ "my-pod",
         data := some (.doc
           { kind := sampleObj.model.kind
             apiVersion := sampleObj.model.apiVersion
             name := some "my-pod"
             resourceVersion := sampleObj.model.metadata.resource_version
             uid := none
             spec := sampleObj.model.spec
             status := sampleObj.model.status }) }] :=
  C6_update_clears_uid sampleObj (respF 500) "my-pod" "abc-123" rfl rfl

/-! ## C7 -/

/-- C7: `create()` with name set classifies a non-success response:
409 → already-exists, 422 → unprocessable-entity, 401 → unauthorized,
any other status → generic bad-request. -/
theorem C7_create_classification (o : K8sObject) (resp : HttpResponse) (n : String)
    (hn : o.name = some n) (hs : resp.success = false) :
    (resp.status = 401 → (K8sObject.create o resp).result = .error .unauthorized) ∧
    (resp.status = 409 → (K8sObject.create o resp).result = .error .alreadyExists) ∧
    (resp.status = 422 → (K8sObject.create o resp).result = .error .unprocessableEntity) ∧
    (resp.status ≠ 401 → resp.status ≠ 409 → resp.status ≠ 422 →
      (K8sObject.create o resp).result = .error .badRequest) := by
  unfold K8sObject.create
  rw [hn]
  refine ⟨fun h1 => ?_, fun h9 => ?_, fun h2 => ?_, fun h1 h9 h2 => ?_⟩ <;>
    simp_all

/-- Witness for C7 at a concrete object and a concrete 409 response. -/
theorem C7_witness :
    ((respF 409).status = 401 →
      (K8sObject.create sampleObj (respF 409)).result = .error .unauthorized) ∧
    ((respF 409).status = 409 →
      (K8sObject.create sampleObj (respF 409)).result = .error .alreadyExists) ∧
    ((respF 409).status = 422 →
      (K8sObject.create sampleObj (respF 409)).result = .error .unprocessableEntity) ∧
    ((respF 409).status ≠ 401 → (respF 409).status ≠ 409 → (respF 409).status ≠ 422 →
      (K8sObject.create sampleObj (respF 409)).result = .error .badRequest) :=
  C7_create_classification sampleObj (respF 409) "my-pod" rfl rfl

/-! ## C2 -/

/-- Non-success classification performed by `create` (and, identically,
by the generic `list`): the spec's contract for these two operations. -/
def spec_classify_create (s : Nat) : K8sError :=
  if s = 401 then .unauthorized
  else if s = 409 then .alreadyExists
  else if s = 422 then .unprocessableEntity
  else .badRequest

/-- Non-success classification performed by `update`: note 401 falls
through to the generic bad-request. -/
def spec_classify_update (s : Nat) : K8sError :=
  if s = 404 then .notFound
  else if s = 422 then .unprocessableEntity
  else .badRequest

/-- Non-success classification performed by `delete`: note 401 and 422
fall through to the generic bad-request. -/
def spec_classify_delete (s : Nat) : K8sError :=
  if s = 404 then .notFound
  else .badRequest

/-- C2 counterexample: the claimed uniform contract fails on the code.
At status 401, `update` raises bad-request (not unauthorized) and
`get_model` raises not-found (not unauthorized); at status 422, `delete`
raises bad-request (not unprocessable-entity); at status 409, `list`
raises already-exists although the claim reserves that for `create`
only. -/
theorem C2_counterexample :
    (K8sObject.update sampleObj (respF 401)).result = .error K8sError.badRequest ∧
    (K8sObject.get_model sampleObj (respF 401)).1 = .error K8sError.notFound ∧
    (K8sObject.delete sampleObj (respF 422)).result = .error K8sError.badRequest ∧
    (K8sObject.list sampleObj (respF 409)).1 = .error K8sError.alreadyExists := by
  refine ⟨rfl, rfl, rfl, rfl⟩

/-- C2 amended: per-operation classification of a non-success response
(with a non-zero status, which `list` otherwise rejects as a generic
error): `create` and `list` classify 401/409/422/else as
unauthorized/already-exists/unprocessable-entity/bad-request; `update`
classifies 404/422/else as not-found/unprocessable-entity/bad-request;
`delete` classifies 404/else as not-found/bad-request; `get_model` maps
every non-success response to not-found. -/
theorem C2_per_operation_classification (o : K8sObject) (resp : HttpResponse)
    (n : String) (hn : o.name = some n) (hs : resp.success = false)
    (hst : resp.status ≠ 0) :
    (K8sObject.create o resp).result = .error (spec_classify_create resp.status) ∧
    (K8sObject.update o resp).result = .error (spec_classify_update resp.status) ∧
    (K8sObject.delete o resp).result = .error (spec_classify_delete resp.status) ∧
    (K8sObject.get_model o resp).1 = .error K8sError.notFound ∧
    (K8sObject.list o resp).1 = .error (spec_classify_create resp.status) := by
  unfold K8sObject.create K8sObject.update K8sObject.delete K8sObject.get_model K8sObject.list
  rw [hn]
  simp [hs, hst, spec_classify_create, spec_classify_update, spec_classify_delete]

/-- Witness for C2 at a concrete object and a concrete 500 response. -/
theorem C2_witness :
    (K8sObject.create sampleObj (respF 500)).result
        = .error (spec_classify_create (respF 500).status) ∧
    (K8sObject.update sampleObj (respF 500)).result
        = .error (spec_classify_update (respF 500).status) ∧
    (K8sObject.delete sampleObj (respF 500)).result
        = .error (spec_classify_delete (respF 500).status) ∧
    (K8sObject.get_model sampleObj (respF 500)).1 = .error K8sError.notFound ∧
    (K8sObject.list sampleObj (respF 500)).1
        = .error (spec_classify_create (respF 500).status) :=
  C2_per_operation_classification sampleObj (respF 500) "my-pod" rfl rfl (by decide)

/-! ## C9 -/

/-- An autoscaler-typed resource object named `web` in namespace
`default`. -/
def hpaWeb : K8sObject :=
  { oid := 10
    cls := .hpa
    config := sampleConfig
    obj_type := "HorizontalPodAutoscaler"
    model := { kind := "HorizontalPodAutoscaler", apiVersion := "extensions/v1beta1",
               metadata := { name := some "web", resource_version := none, uid := none },
               spec := "hpaSpec", status := "hpaStatus" }
    base_url := get_base_url "v1" "default" "HorizontalPodAutoscaler" }

/-- A stateful-set-typed resource object, also named `web` in namespace
`default`, held as a distinct Python object. -/
def ssWeb : K8sObject :=
  { oid := 11
    cls := .statefulSet
    config := sampleConfig
    obj_type := "StatefulSet"
    model := { kind := "StatefulSet", apiVersion := "apps/v1beta1",
               metadata := { name := some "web", resource_version := none, uid := none },
               spec := "ssSpec", status := "ssStatus" }
    base_url := get_base_url "v1" "default" "StatefulSet" }

/-- A second autoscaler-typed object named `web` with entirely different
document content. -/
def hpaWeb2 : K8sObject :=
  { oid := 12
    cls := .hpa
    config := sampleConfig
    obj_type := "HorizontalPodAutoscaler"
    model := { kind := "HorizontalPodAutoscaler", apiVersion := "extensions/v1beta1",
               metadata := { name := some "web", resource_version := some "7", uid := some "zz" },
               spec := "otherSpec", status := "otherStatus" }
    base_url := get_base_url "v1" "default" "HorizontalPodAutoscaler" }

/-- C9 counterexample: two resource objects of unrelated subclasses with
the same namespace and the same name compare unequal — both `__eq__`
methods return `NotImplemented` and Python falls back to identity. -/
theorem C9_counterexample :
    hpaWeb.config.ns = ssWeb.config.ns ∧
    hpaWeb.name = ssWeb.name ∧
    pyEq hpaWeb ssWeb = false := by
  refine ⟨rfl, rfl, rfl⟩

/-- C9 amended: whenever one object's class is an instance of the
other's (in particular for two objects of the same class), the two
compare equal iff their namespaces match and their names match,
regardless of the rest of the held document content. -/
theorem C9_eq_iff_namespace_and_name (a b : K8sObject)
    (h : isinst b.cls a.cls = true ∨ isinst a.cls b.cls = true) :
    pyEq a b = true ↔ (a.config.ns = b.config.ns ∧ a.name = b.name) := by
  unfold pyEq K8sObject.eqMethod
  rcases h with h | h
  · simp [h]
  · by_cases h2 : isinst b.cls a.cls
    · simp [h2]
    · rw [if_neg h2, if_pos h]
      simp only [Bool.and_eq_true, beq_iff_eq]
      constructor
      · rintro ⟨x, y⟩
        exact ⟨x.symm, y.symm⟩
      · rintro ⟨x, y⟩
        exact ⟨x.symm, y.symm⟩

/-- Witness for C9: two same-class objects with matching namespace and
name but different document content compare equal. -/
theorem C9_witness :
    pyEq hpaWeb hpaWeb2 = true ↔
      (hpaWeb.config.ns = hpaWeb2.config.ns ∧ hpaWeb.name = hpaWeb2.name) :=
  C9_eq_iff_namespace_and_name hpaWeb hpaWeb2 (Or.inl rfl)

/-! ## C10 -/

/-- C10: when `create()` fails on a non-success response, the held model
keeps the resource-version clearing performed before the send — the
post-call state is exactly the pre-call state with
`metadata.resource_version := none` and every other field unchanged. -/
theorem C10_create_failure_keeps_cleared_rv (o : K8sObject) (resp : HttpResponse)
    (n v : String) (hn : o.name = some n)
    (hrv : o.model.metadata.resource_version = some v)
    (hs : resp.success = false) :
    (∃ e, (K8sObject.create o resp).result = .error e) ∧
    (K8sObject.create o resp).state =
      { o with model := { o.model with
          metadata := { o.model.metadata with resource_version := none } } } := by
  unfold K8sObject.create
  rw [hn]
  simp [hrv, hs]

/-- Witness for C10: concrete failing create on an object holding
resource version `"42"`. -/
theorem C10_witness :
    (∃ e, (K8sObject.create sampleObj (respF 409)).result = .error e) ∧
    (K8sObject.create sampleObj (respF 409)).state =
      { sampleObj with model := { sampleObj.model with
          metadata := { sampleObj.model.metadata with resource_version := none } } } :=
  C10_create_failure_keeps_cleared_rv sampleObj (respF 409) "my-pod" "42" rfl rfl rfl

/-! ## C8 -/

/-- A server-returned autoscaler item named `php-apache`. -/
def hpaItemDoc : Doc :=
  { kind := "HorizontalPodAutoscaler", apiVersion := "extensions/v1beta1",
    name := some "php-apache", resourceVersion := some "1", uid := some "u1",
    spec := "s", status := "t" }

/-- A successful list response whose body carries one item. -/
def listResp : HttpResponse :=
  { success := true, status := 200, data := { doc := emptyDoc, items := [hpaItemDoc] } }

/-- C8: the claim says `list(pattern)` returns exactly the items whose
name contains the pattern. On the code it cannot: the item `php-apache`
does match the pattern `php` (first conjunct), yet the call raises
`SyntaxError` (second conjunct) because rebuilding a wrapper per item
runs `K8sHorizontalPodAutoscaler.__init__`, which always fails (see C1).
With a pattern matching nothing the call does return the empty list
(third conjunct): the filtering itself behaves as claimed, only the
wrapper construction is broken. -/
theorem C8_list_wrapper_construction_fails :
    nameContains "php" (HorizontalPodAutoscaler.build hpaItemDoc) = true ∧
    (K8sHorizontalPodAutoscaler.list hpaWeb (some "php") listResp).1
      = .error K8sError.invalidState ∧
    (K8sHorizontalPodAutoscaler.list hpaWeb (some "zzz") listResp).1
      = .ok [] := by
  refine ⟨rfl, rfl, rfl⟩
